/-
Verification of the command-registration and dispatch engine of the
yc-bot-tg repository (src/commands.py) and of the resource repositories
(src/cloud_api.py), as a shallow embedding in Lean 4.

Modelling conventions:
* Python exceptions become explicit sum types.  A grpc.RpcError is a
  structure recording whether the object is also a grpc.Call, its status
  code and its details string.  AppException records the message passed to
  its constructor (its str) and the implicitly chained context exception,
  exactly the data its format method reads.
* A handler body is modelled by its observable outcome on given string
  arguments: it returns normally, raises AppException, or raises any other
  exception class.
* BaseCommand.run is modelled as a pure function from a command group and
  the raw token list to an outcome recording which reply the dispatcher
  sent (text and edit flag of the single reply_raw call made by
  _reply_error) or which handler it invoked with which arguments.  The
  emojize wrapping applied on top of the message text is an external
  presentation step and is not modelled; the outcome carries the message
  string handed to _reply_error.
* __init_subclass__ receives the registered methods sorted by their
  position in the class source; the embedding therefore takes the handler
  declarations as a list already in source order.
-/
import Mathlib

namespace YcBot

/-- Grpc status codes appearing in cloud_api.py. -/
inductive StatusCode where
  | NOT_FOUND
  | INVALID_ARGUMENT
  | INTERNAL
  | UNAVAILABLE
  | PERMISSION_DENIED
  deriving DecidableEq, Repr

/-- The printable name of a status code, as grpc exposes via code().name. -/
def StatusCode.printedName : StatusCode → String
  | .NOT_FOUND => "NOT_FOUND"
  | .INVALID_ARGUMENT => "INVALID_ARGUMENT"
  | .INTERNAL => "INTERNAL"
  | .UNAVAILABLE => "UNAVAILABLE"
  | .PERMISSION_DENIED => "PERMISSION_DENIED"

/-- A raised grpc.RpcError.  isCall records whether the exception object is
also an instance of grpc.Call (carrying code and details), which is what
both AppException.format and BaseRepo._is_not_found test. -/
structure RpcError where
  isCall : Bool
  code : StatusCode
  details : String
  deriving DecidableEq, Repr

/-- The AppException of cloud_api.py.  message is str(self) (the argument
given to the constructor, or the empty string when raised bare), and
context is the implicitly chained active exception, Python dunder context,
set whenever the exception is raised inside an except block. -/
structure AppException where
  message : String
  context : Option RpcError
  deriving DecidableEq, Repr

/-- AppException.format: when the chained context is a grpc.Call, report
its status-code name and details; otherwise report str(self). -/
def AppException.format (e : AppException) : String :=
  match e.context with
  | some err => if err.isCall then err.code.printedName ++ ": " ++ err.details else e.message
  | none => e.message

/-- Observable outcome of executing one handler body on given arguments:
normal return, raised AppException, or raised exception of any other
class. -/
inductive HandlerOutcome where
  | ok
  | appError (e : AppException)
  | otherError

/-- One entry of the args list built by BaseCommand.register: the dict
with keys name (the parameter name with trailing underscores stripped),
type (the annotation name when present) and optional (whether the
parameter has a default value). -/
structure ArgSpec where
  name : String
  typeHint : Option String
  optional : Bool
  deriving DecidableEq, Repr

/-- One formal parameter of a handler method, as inspect.signature reports
it: its name, its annotation (the type name, none when the annotation is
empty) and whether it has a default value. -/
structure Param where
  name : String
  typeHint : Option String
  hasDefault : Bool
  deriving DecidableEq, Repr

/-- One handler declaration as BaseCommand.register sees it: the method
name, the full parameter list (including the leading self parameter), the
default and optional flags given to register, and the observable behavior
of the method body. -/
structure HandlerDecl where
  name : String
  params : List Param
  isDefault : Bool
  isOptional : Bool
  behavior : List String → HandlerOutcome

/-- name.rstrip with underscore: drop all trailing underscores. -/
def rstripUnderscore (s : String) : String :=
  String.mk ((s.toList.reverse.dropWhile (fun c => c == '_')).reverse)

/-- name.startswith with a one-character underscore prefix: the first
character of the name is an underscore. -/
def startsWithUnderscore (s : String) : Bool :=
  match s.toList with
  | [] => false
  | c :: _ => c == '_'

/-- The parameter loop of BaseCommand.register, applied to the parameters
after self: skips parameters whose names start with an underscore, and for
each remaining parameter builds in one pass both the ArgSpec dict appended
to args and the rendered usage fragment appended to spec.  A Python type
object never has an empty name, so the truthiness test on the type entry
coincides with its presence. -/
def registerLoop : List Param → List ArgSpec × List String
  | [] => ([], [])
  | p :: ps =>
    if startsWithUnderscore p.name then registerLoop ps
    else
      let arg : ArgSpec :=
        { name := rstripUnderscore p.name, typeHint := p.typeHint, optional := p.hasDefault }
      let base :=
        match arg.typeHint with
        | some t => arg.name ++ ":" ++ t
        | none => arg.name
      let rendered := if arg.optional then "[" ++ base ++ "]" else "<" ++ base ++ ">"
      let rest := registerLoop ps
      (arg :: rest.1, rendered :: rest.2)

/-- The args list attached to a method by BaseCommand.register (the
parameter list is sliced from index 1 to drop self). -/
def registerArgs (params : List Param) : List ArgSpec :=
  (registerLoop (params.drop 1)).1

/-- The formatted usage text attached to a method by BaseCommand.register:
the action name, bracket-wrapped when the optional or default flag is set,
joined by single spaces with the rendered fragment of each argument. -/
def formattedSpec (decl : HandlerDecl) : String :=
  let head := if decl.isOptional || decl.isDefault then "[" ++ decl.name ++ "]" else decl.name
  String.intercalate " " (head :: (registerLoop (decl.params.drop 1)).2)

/-- Behavior of the built-in help action: it renders the help text and
replies with it, raising no exception, so its outcome is ok. -/
def helpBehavior : List String → HandlerOutcome := fun _ => .ok

/-- One entry of the sub-command dict: the action name mapped to the
handler behavior and its args list. -/
structure SubCommand where
  name : String
  args : List ArgSpec
  run : List String → HandlerOutcome

/-- A built command group: the insertion-ordered sub-command dict and the
names recorded as the default and the optional command. -/
structure CommandGroup where
  subCommands : List SubCommand
  defaultCommand : Option String
  optionalCommand : Option String

/-- Insertion into a Python dict modelled as an association list: an
existing key keeps its position and gets the new value, a new key is
appended at the end. -/
def dictInsert (m : List SubCommand) (sc : SubCommand) : List SubCommand :=
  if m.any (fun x => x.name == sc.name) then
    m.map (fun x => if x.name == sc.name then sc else x)
  else m ++ [sc]

/-- BaseCommand.__init_subclass__: seed the sub-command dict with the help
entry carrying an empty args list, then walk the registered methods in
source order, inserting each with its args and recording the default
command when the default flag is set, else the optional command when the
optional flag is set (an elif, so a method with both flags only sets the
default). -/
def build (decls : List HandlerDecl) : CommandGroup :=
  decls.foldl
    (fun g decl =>
      { subCommands :=
          dictInsert g.subCommands ⟨decl.name, registerArgs decl.params, decl.behavior⟩
        defaultCommand := if decl.isDefault then some decl.name else g.defaultCommand
        optionalCommand :=
          if !decl.isDefault && decl.isOptional then some decl.name else g.optionalCommand })
    { subCommands := [⟨"help", [], helpBehavior⟩]
      defaultCommand := none
      optionalCommand := none }

/-- Dict lookup by action name. -/
def lookupSub (g : CommandGroup) (action : String) : Option SubCommand :=
  g.subCommands.find? (fun sc => sc.name == action)

/-- The Python membership test action in self._sub_commands. -/
def isRegistered (g : CommandGroup) (action : String) : Bool :=
  (lookupSub g action).isSome

/-- Python falsiness of the action variable, an Optional string: None and
the empty string are falsy. -/
def pyFalsy : Option String → Bool
  | none => true
  | some s => s == ""

/-- Observable outcome of one BaseCommand.run call.  errorReply records a
_reply_error call (the message text and the edit flag passed to the raw
reply function) made without invoking any handler; the three handler
constructors record the invoked action and its argument list, together
with the dispatch result: normal return, AppException caught and converted
into an error reply (with its message text and edit flag), or any other
exception propagating uncaught.  keyError records the unreachable dict
KeyError were the recorded default or optional name not a dict key. -/
inductive RunOutcome where
  | errorReply (msg : String) (edit : Bool)
  | handlerOk (action : String) (args : List String)
  | handlerDomainError (action : String) (args : List String) (msg : String) (edit : Bool)
  | handlerUncaught (action : String) (args : List String)
  | keyError (action : String)
  deriving DecidableEq, Repr

/-- Whether the outcome invoked the given action with the given argument
list. -/
def RunOutcome.invokes : RunOutcome → String → List String → Bool
  | .handlerOk a as, b, bs => a == b && as == bs
  | .handlerDomainError a as _ _, b, bs => a == b && as == bs
  | .handlerUncaught a as, b, bs => a == b && as == bs
  | _, _, _ => false

/-- Whether the outcome invoked any handler at all. -/
def RunOutcome.invokesAny : RunOutcome → Bool
  | .handlerOk _ _ => true
  | .handlerDomainError _ _ _ _ => true
  | .handlerUncaught _ _ => true
  | _ => false

/-- The tail of BaseCommand.run after resolution chose an action (an
Optional string) and an argument list: the falsiness check replying action
required, the dict lookup, the arity check on the count of non-optional
arg specs against the count of all arg specs, and the handler invocation
guarded by an except clause catching exactly AppException and replying
with its formatted message.  Every _reply_error call here passes no inline
argument, so the edit flag of every reply is false. -/
def runResolved (g : CommandGroup) (action? : Option String) (args : List String) : RunOutcome :=
  if pyFalsy action? then .errorReply "action required" false
  else
    let action := action?.getD ""
    match lookupSub g action with
    | none => .keyError action
    | some sc =>
      let required := sc.args.filter (fun a => !a.optional)
      if args.length < required.length ∨ args.length > sc.args.length then
        .errorReply ("wrong args count (expected " ++ toString required.length ++ ")") false
      else
        match sc.run args with
        | .ok => .handlerOk action args
        | .appError e => .handlerDomainError action args e.format false
        | .otherError => .handlerUncaught action args

/-- BaseCommand.run on the raw token list: an empty list resolves to the
default command with no arguments; a single token that is not a registered
action resolves to the optional command with that token as the argument
list; otherwise the first token is the action and the rest are the
arguments, replying wrong action when the first token is not registered. -/
def run (g : CommandGroup) (tokens : List String) : RunOutcome :=
  match tokens with
  | [] => runResolved g g.defaultCommand []
  | tok :: rest =>
    if rest.isEmpty && !(isRegistered g tok) then
      runResolved g g.optionalCommand [tok]
    else if !(isRegistered g tok) then
      .errorReply "wrong action" false
    else
      runResolved g (some tok) rest

/-- Modelled from the spec words for claim C8: one argument is rendered as
its name, suffixed with a colon and the type when a type hint exists,
wrapped in square brackets when it has a default value and in angle
brackets when it is required. -/
def specRenderArg (a : ArgSpec) : String :=
  let base :=
    match a.typeHint with
    | some t => a.name ++ ":" ++ t
    | none => a.name
  if a.optional then "[" ++ base ++ "]" else "<" ++ base ++ ">"

/-- Modelled from the spec words for claim C8: the usage text is the
action name, wrapped in square brackets exactly when the handler is the
default or the optional action, joined with one rendering per recorded arg
spec in order. -/
def specUsageText (actionName : String) (argSpecs : List ArgSpec)
    (isDefaultOrOptional : Bool) : String :=
  String.intercalate " "
    ((if isDefaultOrOptional then "[" ++ actionName ++ "]" else actionName)
      :: argSpecs.map specRenderArg)

/-- A cloud resource as the repositories hand it back; the field mapping
from the provider message (status translation, public ips) is outside the
claims about get_single and is not modelled. -/
structure Item where
  id : String
  name : String
  deriving DecidableEq, Repr

/-- The provider client stub of one repository: the Get call by id and the
List call with an optional filter expression, each either returning or
raising a grpc.RpcError. -/
structure CloudClient where
  getOne : String → Except RpcError Item
  listAll : Option String → Except RpcError (List Item)

/-- One remote call made by a repository method, for tracing which client
operations a call performs. -/
inductive CloudCall where
  | getCall (arg : String)
  | listCall (filterArg : Option String)
  deriving DecidableEq, Repr

/-- BaseRepo._is_not_found: the error is a grpc.Call whose code is
INVALID_ARGUMENT or NOT_FOUND. -/
def is_not_found (e : RpcError) : Bool :=
  e.isCall && (e.code == .INVALID_ARGUMENT || e.code == .NOT_FOUND)

/-- Result of a repository method: a value, a raised AppException, or a
raised TypeError (a programming defect, caught nowhere). -/
inductive RepoResult (α : Type) where
  | ok (a : α)
  | appError (e : AppException)
  | typeError (msg : String)
  deriving DecidableEq, Repr

namespace InstanceRepo

/-- InstanceRepo.get_list under the call_grpc wrapper: one List call; a
grpc.RpcError is converted into a bare AppException chained to it. -/
def get_list (c : CloudClient) (filterArg : Option String) :
    List CloudCall × RepoResult (List Item) :=
  ([CloudCall.listCall filterArg],
    match c.listAll filterArg with
    | .ok items => .ok items
    | .error e => .appError ⟨"", some e⟩)

/-- InstanceRepo.get_single: try the direct Get; on a grpc.RpcError that
is not a not-found or invalid-argument call error, re-raise (the call_grpc
wrapper converts it to an AppException chained to it); otherwise fall back
to get_list filtered by name, raising AppException with message instance
not found when the search is empty (chained to the active Get error) and
returning the first hit otherwise. -/
def get_single (c : CloudClient) (idOrName : String) :
    List CloudCall × RepoResult Item :=
  match c.getOne idOrName with
  | .ok item => ([CloudCall.getCall idOrName], .ok item)
  | .error err =>
    if !(is_not_found err) then
      ([CloudCall.getCall idOrName], .appError ⟨"", some err⟩)
    else
      match get_list c (some ("name=\"" ++ idOrName ++ "\"")) with
      | (calls, .ok items) =>
        (CloudCall.getCall idOrName :: calls,
          match items with
          | [] => .appError ⟨"instance not found", some err⟩
          | x :: _ => .ok x)
      | (calls, .appError e) => (CloudCall.getCall idOrName :: calls, .appError e)
      | (calls, .typeError m) => (CloudCall.getCall idOrName :: calls, .typeError m)

end InstanceRepo

namespace PostgresRepo

/-- PostgresRepo.get_list under the call_grpc wrapper, identical in shape
to the instance repository. -/
def get_list (c : CloudClient) (filterArg : Option String) :
    List CloudCall × RepoResult (List Item) :=
  ([CloudCall.listCall filterArg],
    match c.listAll filterArg with
    | .ok items => .ok items
    | .error e => .appError ⟨"", some e⟩)

/-- Keyword binding at the fallback call site of PostgresRepo.get_single:
get_list declares a single keyword parameter named filter_ (with default
None), so binding any other keyword raises TypeError, per Python calling
conventions.  The source call site passes the keyword filter, not
filter_. -/
def bindGetListKeyword (kw : String) (v : String) : Except String (Option String) :=
  if kw == "filter_" then .ok (some v)
  else .error ("get_list() got an unexpected keyword argument " ++ kw)

/-- PostgresRepo.get_single: like the instance repository, except that the
fallback invokes self.get_list with the keyword filter (the source line
pgs = self.get_list(filter=...) at cloud_api.py line 184), which does not
match the parameter name filter_ and therefore raises TypeError before any
List call is made. -/
def get_single (c : CloudClient) (idOrName : String) :
    List CloudCall × RepoResult Item :=
  match c.getOne idOrName with
  | .ok pg => ([CloudCall.getCall idOrName], .ok pg)
  | .error err =>
    if !(is_not_found err) then
      ([CloudCall.getCall idOrName], .appError ⟨"", some err⟩)
    else
      match bindGetListKeyword "filter" ("name=\"" ++ idOrName ++ "\"") with
      | .error msg => ([CloudCall.getCall idOrName], .typeError msg)
      | .ok filterArg =>
        match get_list c filterArg with
        | (calls, .ok pgs) =>
          (CloudCall.getCall idOrName :: calls,
            match pgs with
            | [] => .appError ⟨"pg cluster not found", some err⟩
            | x :: _ => .ok x)
        | (calls, .appError e) => (CloudCall.getCall idOrName :: calls, .appError e)
        | (calls, .typeError m) => (CloudCall.getCall idOrName :: calls, .typeError m)

end PostgresRepo

/-- The self parameter every handler method declares first; register
slices it away. -/
def selfParam : Param := ⟨"self", none, false⟩

/-- A handler behavior that returns normally. -/
def okBehavior : List String → HandlerOutcome := fun _ => .ok

/-- The handler declarations of InstanceCommand in source order: list
(default, one optional bool parameter), get (optional, one required str
parameter), start, stop, restart (one required str parameter each). -/
def vmDecls (bList bGet bStart bStop bRestart : List String → HandlerOutcome) :
    List HandlerDecl :=
  [⟨"list", [selfParam, ⟨"inline", some "bool", true⟩], true, false, bList⟩,
   ⟨"get", [selfParam, ⟨"id_or_name", some "str", false⟩], false, true, bGet⟩,
   ⟨"start", [selfParam, ⟨"id_or_name", some "str", false⟩], false, false, bStart⟩,
   ⟨"stop", [selfParam, ⟨"id_or_name", some "str", false⟩], false, false, bStop⟩,
   ⟨"restart", [selfParam, ⟨"id_or_name", some "str", false⟩], false, false, bRestart⟩]

/-- The handler declarations of PostgresCommand in source order. -/
def pgDecls (bList bGet bStart bStop : List String → HandlerOutcome) : List HandlerDecl :=
  [⟨"list", [selfParam, ⟨"inline", some "bool", true⟩], true, false, bList⟩,
   ⟨"get", [selfParam, ⟨"id_or_name", some "str", false⟩], false, true, bGet⟩,
   ⟨"start", [selfParam, ⟨"id_or_name", some "str", false⟩], false, false, bStart⟩,
   ⟨"stop", [selfParam, ⟨"id_or_name", some "str", false⟩], false, false, bStop⟩]

/-- The handler declarations of FunctionCommand in source order. -/
def funcDecls (bList bGet bOpen bClose : List String → HandlerOutcome) : List HandlerDecl :=
  [⟨"list", [selfParam, ⟨"inline", some "bool", true⟩], true, false, bList⟩,
   ⟨"get", [selfParam, ⟨"id_or_name", some "str", false⟩], false, true, bGet⟩,
   ⟨"open", [selfParam, ⟨"id_or_name", some "str", false⟩], false, false, bOpen⟩,
   ⟨"close", [selfParam, ⟨"id_or_name", some "str", false⟩], false, false, bClose⟩]

/-- A group declaring a single plain handler, so neither a default nor an
optional command is recorded. -/
def plainDecls : List HandlerDecl :=
  [⟨"ping", [selfParam], false, false, okBehavior⟩]

/-- An AppException raised by a handler body with a plain message and no
chained grpc context. -/
def boomException : AppException := ⟨"boom", none⟩

/-- A handler behavior that raises the boom AppException. -/
def failBehavior : List String → HandlerOutcome := fun _ => .appError boomException

/-- A declaration of one handler with a single required parameter whose
body raises the boom AppException. -/
def failDecl : HandlerDecl :=
  ⟨"fail", [selfParam, ⟨"x", none, false⟩], false, false, failBehavior⟩

/-- The group built from the single failing handler. -/
def failDecls : List HandlerDecl := [failDecl]

/-- The failing handler as it sits in the built sub-command dict. -/
def failSub : SubCommand := ⟨"fail", registerArgs failDecl.params, failBehavior⟩

lemma pyFalsy_some_ne (action : String) (hne : action ≠ "") :
    pyFalsy (some action) = false := by
  simp [pyFalsy, hne]

lemma runResolved_invoke (g : CommandGroup) (action : String) (sc : SubCommand)
    (args : List String) (hne : action ≠ "") (hlook : lookupSub g action = some sc)
    (hlo : (sc.args.filter (fun a => !a.optional)).length ≤ args.length)
    (hhi : args.length ≤ sc.args.length) :
    runResolved g (some action) args =
      match sc.run args with
      | .ok => .handlerOk action args
      | .appError e => .handlerDomainError action args e.format false
      | .otherError => .handlerUncaught action args := by
  simp only [runResolved, pyFalsy_some_ne action hne, Bool.false_eq_true, if_false,
    Option.getD_some, hlook]
  rw [if_neg (by omega)]

lemma runResolved_arity_error (g : CommandGroup) (action : String) (sc : SubCommand)
    (args : List String) (hne : action ≠ "") (hlook : lookupSub g action = some sc)
    (hbad : args.length < (sc.args.filter (fun a => !a.optional)).length ∨
      args.length > sc.args.length) :
    runResolved g (some action) args =
      .errorReply ("wrong args count (expected " ++
        toString (sc.args.filter (fun a => !a.optional)).length ++ ")") false := by
  simp only [runResolved, pyFalsy_some_ne action hne, Bool.false_eq_true, if_false,
    Option.getD_some, hlook]
  rw [if_pos hbad]

lemma invokes_match (o : HandlerOutcome) (action : String) (args : List String) :
    (match o with
      | HandlerOutcome.ok => RunOutcome.handlerOk action args
      | HandlerOutcome.appError e => RunOutcome.handlerDomainError action args e.format false
      | HandlerOutcome.otherError => RunOutcome.handlerUncaught action args).invokes
      action args = true := by
  cases o <;> simp [RunOutcome.invokes]

lemma runResolved_domainError_edit (g : CommandGroup) (action? : Option String)
    (args : List String) (a : String) (as : List String) (msg : String) (ed : Bool)
    (h : runResolved g action? args = .handlerDomainError a as msg ed) : ed = false := by
  simp only [runResolved] at h
  split at h
  · exact RunOutcome.noConfusion h
  · split at h
    · exact RunOutcome.noConfusion h
    · split at h
      · exact RunOutcome.noConfusion h
      · split at h
        · exact RunOutcome.noConfusion h
        · injection h with h1 h2 h3 h4
          exact h4.symm
        · exact RunOutcome.noConfusion h

/-- Claim C4: for every command group and every dispatch with at least two
tokens whose first token is not a registered action name, the dispatch
fails with the message wrong action and no handler is invoked. -/
theorem unknownActionError (g : CommandGroup) (tok : String) (rest : List String)
    (hrest : rest ≠ []) (hreg : isRegistered g tok = false) :
    run g (tok :: rest) = .errorReply "wrong action" false ∧
    (run g (tok :: rest)).invokesAny = false := by
  have hne : rest.isEmpty = false := by
    cases rest with
    | nil => exact absurd rfl hrest
    | cons a l => rfl
  refine ⟨?_, ?_⟩ <;> simp [run, hne, hreg, RunOutcome.invokesAny]

/-- Witness for claim C4 at a concrete dispatch: two tokens whose first is
unregistered in the group with the single plain handler. -/
theorem unknownActionError_witness :
    run (build plainDecls) ["frobnicate", "x"] = .errorReply "wrong action" false ∧
    (run (build plainDecls) ["frobnicate", "x"]).invokesAny = false :=
  unknownActionError (build plainDecls) "frobnicate" ["x"] (by decide) rfl

/-- Claim C3: for every resolved action with r required argument specs and
t total argument specs, the dispatch fails with the message wrong args
count (expected r) and invokes no handler exactly when the number of
supplied tokens is below r or above t; otherwise the handler is invoked
positionally with exactly the supplied tokens. -/
theorem arityValidation (g : CommandGroup) (action : String) (sc : SubCommand)
    (args : List String) (hne : action ≠ "") (hlook : lookupSub g action = some sc) :
    ((args.length < (sc.args.filter (fun a => !a.optional)).length ∨
        args.length > sc.args.length) →
      runResolved g (some action) args =
        .errorReply ("wrong args count (expected " ++
          toString (sc.args.filter (fun a => !a.optional)).length ++ ")") false ∧
      (runResolved g (some action) args).invokesAny = false) ∧
    ((sc.args.filter (fun a => !a.optional)).length ≤ args.length →
      args.length ≤ sc.args.length →
      (runResolved g (some action) args).invokes action args = true) := by
  refine ⟨fun hbad => ?_, fun hlo hhi => ?_⟩
  · rw [runResolved_arity_error g action sc args hne hlook hbad]
    exact ⟨rfl, rfl⟩
  · rw [runResolved_invoke g action sc args hne hlook hlo hhi]
    exact invokes_match (sc.run args) action args

/-- Witness for claim C3: the failing handler takes one required argument;
zero tokens fail with expected 1 and no invocation, one token is passed
through to the handler. -/
theorem arityValidation_witness :
    runResolved (build failDecls) (some "fail") [] =
      .errorReply "wrong args count (expected 1)" false ∧
    (runResolved (build failDecls) (some "fail") ["a"]).invokes "fail" ["a"] = true := by
  have h0 := arityValidation (build failDecls) "fail" failSub [] (by decide) rfl
  have h1 := arityValidation (build failDecls) "fail" failSub ["a"] (by decide) rfl
  exact ⟨(h0.1 (Or.inl (by decide))).1, h1.2 (by decide) (by decide)⟩

/-- Claim C5: during handler execution the dispatcher catches exactly the
AppException class and converts it into a single formatted error reply;
any failure of any other class raised by the handler propagates out of the
dispatch uncaught. -/
theorem domainErrorCatch (g : CommandGroup) (action : String) (sc : SubCommand)
    (args : List String) (e : AppException) (hne : action ≠ "")
    (hlook : lookupSub g action = some sc)
    (hlo : (sc.args.filter (fun a => !a.optional)).length ≤ args.length)
    (hhi : args.length ≤ sc.args.length) :
    (sc.run args = .appError e →
      runResolved g (some action) args = .handlerDomainError action args e.format false) ∧
    (sc.run args = .otherError →
      runResolved g (some action) args = .handlerUncaught action args) := by
  have h := runResolved_invoke g action sc args hne hlook hlo hhi
  refine ⟨fun hb => ?_, fun hb => ?_⟩ <;> rw [h, hb]

/-- Witness for claim C5: the failing handler raises the boom AppException
and the dispatch converts it into the single formatted error reply. -/
theorem domainErrorCatch_witness :
    runResolved (build failDecls) (some "fail") ["a"] =
      .handlerDomainError "fail" ["a"] "boom" false := by
  have h := domainErrorCatch (build failDecls) "fail" failSub ["a"] boomException
    (by decide) rfl (by decide) (by decide)
  exact h.1 rfl

/-- Claim C10: in every command group the built-in help action is seeded
with an empty argument spec, so for any token x, dispatching the raw
tokens help followed by x fails arity validation with the message wrong
args count (expected 0) and the help handler is not invoked. -/
theorem helpArityZero (bL bG bS bSt bR pL pG pS pSt fL fG fO fC : List String → HandlerOutcome)
    (x : String) :
    run (build (vmDecls bL bG bS bSt bR)) ["help", x] =
      .errorReply "wrong args count (expected 0)" false ∧
    (run (build (vmDecls bL bG bS bSt bR)) ["help", x]).invokesAny = false ∧
    run (build (pgDecls pL pG pS pSt)) ["help", x] =
      .errorReply "wrong args count (expected 0)" false ∧
    (run (build (pgDecls pL pG pS pSt)) ["help", x]).invokesAny = false ∧
    run (build (funcDecls fL fG fO fC)) ["help", x] =
      .errorReply "wrong args count (expected 0)" false ∧
    (run (build (funcDecls fL fG fO fC)) ["help", x]).invokesAny = false :=
  ⟨rfl, rfl, rfl, rfl, rfl, rfl⟩

/-- The list handler as it sits in a built sub-command dict, given its
body behavior. -/
def listSubOf (b : List String → HandlerOutcome) : SubCommand :=
  ⟨"list", [⟨"inline", some "bool", true⟩], b⟩

/-- The get handler as it sits in a built sub-command dict, given its body
behavior. -/
def getSubOf (b : List String → HandlerOutcome) : SubCommand :=
  ⟨"get", [⟨"id_or_name", some "str", false⟩], b⟩

/-- Claim C1: dispatching an empty raw-token list resolves to the default
action and invokes it with zero arguments (stated for each of the three
groups of the repository, whose default action list has no required
argument); a group without a default action fails with the message action
required and invokes no handler. -/
theorem emptyDispatchUsesDefault (decls : List HandlerDecl)
    (bL bG bS bSt bR pL pG pS pSt fL fG fO fC : List String → HandlerOutcome) :
    ((build decls).defaultCommand = none →
      run (build decls) [] = .errorReply "action required" false ∧
      (run (build decls) []).invokesAny = false) ∧
    (run (build (vmDecls bL bG bS bSt bR)) []).invokes "list" [] = true ∧
    (run (build (pgDecls pL pG pS pSt)) []).invokes "list" [] = true ∧
    (run (build (funcDecls fL fG fO fC)) []).invokes "list" [] = true := by
  refine ⟨fun h => ?_, ?_, ?_, ?_⟩
  · refine ⟨?_, ?_⟩ <;> simp [run, h, runResolved, pyFalsy, RunOutcome.invokesAny]
  · show (runResolved (build (vmDecls bL bG bS bSt bR)) (some "list") []).invokes "list" [] = true
    rw [runResolved_invoke (build (vmDecls bL bG bS bSt bR)) "list" (listSubOf bL) [] (by decide) rfl (by simp [listSubOf]) (by simp [listSubOf])]
    exact invokes_match (bL []) "list" []
  · show (runResolved (build (pgDecls pL pG pS pSt)) (some "list") []).invokes "list" [] = true
    rw [runResolved_invoke (build (pgDecls pL pG pS pSt)) "list" (listSubOf pL) [] (by decide) rfl (by simp [listSubOf]) (by simp [listSubOf])]
    exact invokes_match (pL []) "list" []
  · show (runResolved (build (funcDecls fL fG fO fC)) (some "list") []).invokes "list" [] = true
    rw [runResolved_invoke (build (funcDecls fL fG fO fC)) "list" (listSubOf fL) [] (by decide) rfl (by simp [listSubOf]) (by simp [listSubOf])]
    exact invokes_match (fL []) "list" []

/-- Witness for claim C1: the plain group has no default action and
replies action required; the vm group invokes list with zero arguments. -/
theorem emptyDispatchUsesDefault_witness :
    run (build plainDecls) [] = .errorReply "action required" false ∧
    (run (build (vmDecls okBehavior okBehavior okBehavior okBehavior okBehavior)) []).invokes
      "list" [] = true := by
  have h := emptyDispatchUsesDefault plainDecls okBehavior okBehavior okBehavior okBehavior
    okBehavior okBehavior okBehavior okBehavior okBehavior okBehavior okBehavior okBehavior
    okBehavior
  exact ⟨(h.1 rfl).1, h.2.1⟩

/-- Counterexample to claim C2: in a group with no optional action,
dispatching one unregistered token replies action required, not wrong
action as the claim states. -/
theorem singleTokenNoOptional_cex :
    run (build plainDecls) ["x"] = .errorReply "action required" false ∧
    run (build plainDecls) ["x"] ≠ .errorReply "wrong action" false :=
  ⟨by decide, by decide⟩

/-- Claim C2 as amended: a dispatch of exactly one token that is not a
registered action name invokes the optional action with that token as its
only argument (stated for the three repository groups, whose optional
action get takes exactly one required argument); if the group has no
optional action, the dispatch fails with the message action required and
no handler is invoked. -/
theorem singleTokenDispatch (decls : List HandlerDecl)
    (bL bG bS bSt bR pL pG pS pSt fL fG fO fC : List String → HandlerOutcome) (tok : String) :
    ((build decls).optionalCommand = none → isRegistered (build decls) tok = false →
      run (build decls) [tok] = .errorReply "action required" false ∧
      (run (build decls) [tok]).invokesAny = false) ∧
    (isRegistered (build (vmDecls bL bG bS bSt bR)) tok = false →
      (run (build (vmDecls bL bG bS bSt bR)) [tok]).invokes "get" [tok] = true) ∧
    (isRegistered (build (pgDecls pL pG pS pSt)) tok = false →
      (run (build (pgDecls pL pG pS pSt)) [tok]).invokes "get" [tok] = true) ∧
    (isRegistered (build (funcDecls fL fG fO fC)) tok = false →
      (run (build (funcDecls fL fG fO fC)) [tok]).invokes "get" [tok] = true) := by
  refine ⟨fun h1 h2 => ?_, fun hreg => ?_, fun hreg => ?_, fun hreg => ?_⟩
  · refine ⟨?_, ?_⟩ <;> simp [run, h1, h2, runResolved, pyFalsy, RunOutcome.invokesAny]
  · simp only [run, List.isEmpty_nil, hreg, Bool.not_false, Bool.and_true, if_true]
    rw [show (build (vmDecls bL bG bS bSt bR)).optionalCommand = some "get" from rfl]
    rw [runResolved_invoke (build (vmDecls bL bG bS bSt bR)) "get" (getSubOf bG) [tok] (by decide) rfl (by simp [getSubOf]) (by simp [getSubOf])]
    exact invokes_match (bG [tok]) "get" [tok]
  · simp only [run, List.isEmpty_nil, hreg, Bool.not_false, Bool.and_true, if_true]
    rw [show (build (pgDecls pL pG pS pSt)).optionalCommand = some "get" from rfl]
    rw [runResolved_invoke (build (pgDecls pL pG pS pSt)) "get" (getSubOf pG) [tok] (by decide) rfl (by simp [getSubOf]) (by simp [getSubOf])]
    exact invokes_match (pG [tok]) "get" [tok]
  · simp only [run, List.isEmpty_nil, hreg, Bool.not_false, Bool.and_true, if_true]
    rw [show (build (funcDecls fL fG fO fC)).optionalCommand = some "get" from rfl]
    rw [runResolved_invoke (build (funcDecls fL fG fO fC)) "get" (getSubOf fG) [tok] (by decide) rfl (by simp [getSubOf]) (by simp [getSubOf])]
    exact invokes_match (fG [tok]) "get" [tok]

/-- Witness for claim C2 as amended: a concrete unregistered token gives
action required in the plain group and invokes get in the vm group. -/
theorem singleTokenDispatch_witness :
    run (build plainDecls) ["abcd-1234"] = .errorReply "action required" false ∧
    (run (build (vmDecls okBehavior okBehavior okBehavior okBehavior okBehavior))
      ["abcd-1234"]).invokes "get" ["abcd-1234"] = true := by
  have h := singleTokenDispatch plainDecls okBehavior okBehavior okBehavior okBehavior
    okBehavior okBehavior okBehavior okBehavior okBehavior okBehavior okBehavior okBehavior
    okBehavior "abcd-1234"
  exact ⟨(h.1 rfl rfl).1, h.2.1 rfl⟩

lemma runResolved_errorReply_edit (g : CommandGroup) (action? : Option String)
    (args : List String) (msg : String) (ed : Bool)
    (h : runResolved g action? args = .errorReply msg ed) : ed = false := by
  simp only [runResolved] at h
  split at h
  · injection h with h1 h2
    exact h2.symm
  · split at h
    · exact RunOutcome.noConfusion h
    · split at h
      · injection h with h1 h2
        exact h2.symm
      · split at h
        · exact RunOutcome.noConfusion h
        · exact RunOutcome.noConfusion h
        · exact RunOutcome.noConfusion h

/-- Counterexample to claim C6: a dispatch whose handler raises a domain
failure delivers the error reply with edit flag false; the run entry point
takes no input describing the triggering UI surface, so a dispatch
triggered by a button press gets the same fresh (non-editing) reply,
contradicting the claimed edit-in-place behavior. -/
theorem buttonErrorEditFlag_cex :
    run (build failDecls) ["fail", "a"] = .handlerDomainError "fail" ["a"] "boom" false ∧
    run (build failDecls) ["fail", "a"] ≠ .handlerDomainError "fail" ["a"] "boom" true :=
  ⟨by decide, by decide⟩

/-- Claim C6 as amended: every error reply the dispatcher delivers, both
the domain-error reply and the resolution and arity replies, carries the
edit flag false, regardless of which UI surface triggered the dispatch:
run passes no inline argument to the error-reply helper, whose edit flag
defaults to false. -/
theorem errorReplyAlwaysFresh (g : CommandGroup) (tokens : List String) :
    (∀ a as msg ed, run g tokens = .handlerDomainError a as msg ed → ed = false) ∧
    (∀ msg ed, run g tokens = .errorReply msg ed → ed = false) := by
  cases tokens with
  | nil =>
    exact ⟨fun a as msg ed h => runResolved_domainError_edit g g.defaultCommand [] a as msg ed h,
      fun msg ed h => runResolved_errorReply_edit g g.defaultCommand [] msg ed h⟩
  | cons tok rest =>
    refine ⟨fun a as msg ed h => ?_, fun msg ed h => ?_⟩ <;>
      simp only [run] at h
    · split at h
      · exact runResolved_domainError_edit _ _ _ _ _ _ _ h
      · split at h
        · exact RunOutcome.noConfusion h
        · exact runResolved_domainError_edit _ _ _ _ _ _ _ h
    · split at h
      · exact runResolved_errorReply_edit _ _ _ _ _ h
      · split at h
        · injection h with h1 h2
          exact h2.symm
        · exact runResolved_errorReply_edit _ _ _ _ _ h

/-- Witness for claim C6 as amended, at the concrete failing dispatch. -/
theorem errorReplyAlwaysFresh_witness :
    run (build failDecls) ["fail", "a"] = .handlerDomainError "fail" ["a"] "boom" false ∧
    (false : Bool) = false :=
  ⟨rfl, (errorReplyAlwaysFresh (build failDecls) ["fail", "a"]).1 "fail" ["a"] "boom" false rfl⟩

/-- A group whose two handlers both claim the default flag. -/
def twoDefaultDecls : List HandlerDecl :=
  [⟨"first", [selfParam], true, false, okBehavior⟩,
   ⟨"second", [selfParam], true, false, okBehavior⟩]

/-- A group with one handler whose argument list has a required parameter
following an optional one. -/
def mixedDecls : List HandlerDecl :=
  [⟨"mixed", [selfParam, ⟨"a", none, true⟩, ⟨"b", none, false⟩], false, false, okBehavior⟩]

/-- Counterexample to claim C7: a group definition in which two handlers
both claim the default flag builds without any failure; the build records
the later handler as the default action and dispatching an empty token
list invokes it. -/
theorem duplicateDefaultBuild_cex :
    (build twoDefaultDecls).defaultCommand = some "second" ∧
    (build twoDefaultDecls).subCommands.map (fun sc => sc.name) =
      ["help", "first", "second"] ∧
    (run (build twoDefaultDecls) []).invokes "second" [] = true :=
  ⟨by decide, by decide, by decide⟩

/-- Claim C7 as amended: building a command group never fails.  A handler
claiming the default flag overwrites any previously recorded default
action (the later declaration wins), likewise for the optional flag (when
the default flag is not also set), and a handler whose argument list has a
required parameter following an optional one is registered unchanged. -/
theorem buildNeverFails (decls : List HandlerDecl) (d : HandlerDecl) :
    ((build (decls ++ [d])).defaultCommand =
      if d.isDefault then some d.name else (build decls).defaultCommand) ∧
    ((build (decls ++ [d])).optionalCommand =
      if !d.isDefault && d.isOptional then some d.name else (build decls).optionalCommand) ∧
    (build mixedDecls).subCommands.map (fun sc => sc.args.map (fun a => a.optional)) =
      [[], [true, false]] := by
  refine ⟨?_, ?_, by decide⟩ <;> simp [build, List.foldl_append]

lemma registerLoop_renders (ps : List Param) :
    (registerLoop ps).2 = (registerLoop ps).1.map specRenderArg := by
  induction ps with
  | nil => rfl
  | cons p ps ih =>
    simp only [registerLoop]
    split
    · exact ih
    · simp [specRenderArg, ih]

/-- Claim C8: for every registered handler the derived usage text is
exactly the action name, bracket-wrapped iff the handler is the default or
optional action, joined with one rendering per recorded argument spec in
declaration order (name, suffixed with the type when a hint exists, angle
brackets when required and square brackets when optional, parameters whose
names begin with an underscore having been excluded), so the text is fully
determined by that metadata; instantiated at the repository handler
shapes list, get and start. -/
theorem usageTextDerived (decl : HandlerDecl) :
    formattedSpec decl =
      specUsageText decl.name (registerArgs decl.params) (decl.isDefault || decl.isOptional) ∧
    formattedSpec ⟨"list", [selfParam, ⟨"inline", some "bool", true⟩], true, false, okBehavior⟩ =
      "[list] [inline:bool]" ∧
    formattedSpec ⟨"get", [selfParam, ⟨"id_or_name", some "str", false⟩], false, true,
      okBehavior⟩ = "[get] <id_or_name:str>" ∧
    formattedSpec ⟨"start", [selfParam, ⟨"id_or_name", some "str", false⟩], false, false,
      okBehavior⟩ = "start <id_or_name:str>" := by
  refine ⟨?_, by decide, by decide, by decide⟩
  simp only [formattedSpec, specUsageText, registerArgs]
  rw [registerLoop_renders, Bool.or_comm]

/-- A client whose direct Get fails with a NOT_FOUND call error and whose
filtered List returns no items. -/
def notFoundClient : CloudClient :=
  ⟨fun _ => .error ⟨true, .NOT_FOUND, "no such id"⟩, fun _ => .ok []⟩

/-- A client whose direct Get fails with an INTERNAL call error. -/
def internalErrClient : CloudClient :=
  ⟨fun _ => .error ⟨true, .INTERNAL, "server error"⟩, fun _ => .ok []⟩

/-- Claim C9 evaluated at the failing input: when the direct lookup fails
with a not-found call error, InstanceRepo.get_single performs the
name-filtered list fallback and, the search being empty, raises the
AppException with message instance not found, and a non-not-found failure
triggers no fallback; but PostgresRepo.get_single raises a TypeError at
the same input because its fallback calls get_list with the keyword
filter instead of the parameter name filter_, so the claimed fallback and
not-found error never happen for the postgres repository. -/
theorem pgFallbackTypeError :
    PostgresRepo.get_single notFoundClient "mydb" =
      ([CloudCall.getCall "mydb"],
        .typeError "get_list() got an unexpected keyword argument filter") ∧
    InstanceRepo.get_single notFoundClient "mydb" =
      ([CloudCall.getCall "mydb", CloudCall.listCall (some ("name=\"mydb\""))],
        .appError ⟨"instance not found", some ⟨true, .NOT_FOUND, "no such id"⟩⟩) ∧
    InstanceRepo.get_single internalErrClient "mydb" =
      ([CloudCall.getCall "mydb"], .appError ⟨"", some ⟨true, .INTERNAL, "server error"⟩⟩) :=
  ⟨by decide, by decide, by decide⟩

end YcBot
